import Mathlib

/-!
Shallow embedding of the FastRTC audio backend core
(src/backend/fastrtc_integration.py and src/backend/main.py).

Modelling conventions:
* Python `datetime` timestamps are minutes on a global clock; `datetime.utcnow()`
  is an explicit `now : Nat` argument threaded into every operation that reads
  the clock.  `datetime.replace(minute := m)` keeps the hour and is only valid
  for `0 ≤ m ≤ 59`, exactly as in CPython.
* A byte string (`bytes`) is a `List Nat`; the empty-bytes join is list flattening.
* A raised Python exception is `Except.error msg` carrying the message text of the exception.  Operations that can raise return `Except String α × State`
  so that the state surviving a raise stays observable, as the mutated Python
  object would.
* The placeholder processing step inside the try-block of `FastRTCStream._process_buffer` (the external sink) is abstracted by a Boolean `sinkOk`
  argument: `sinkOk = true` is the step returning normally, `sinkOk = false`
  is the step raising, which the `except` clause absorbs.
-/

/-- A binary audio chunk (Python bytes). -/
abbrev Chunk := List Nat

/-- Mutable state of `FastRTCStream` (fastrtc_integration.py, lines 21-29). -/
structure FastRTCStream where
  webrtc_id : String
  modality : String
  mode : String
  is_active : Bool
  created_at : Nat
  last_activity : Nat
  audio_buffer : List Chunk
  processing : Bool
deriving DecidableEq, Repr

/-- Source `FastRTCStream.__init__` (lines 21-29): fresh stream, inactive, empty
buffer, not processing, both timestamps set to the current clock. -/
def FastRTCStream.init (webrtc_id modality mode : String) (now : Nat) : FastRTCStream :=
  { webrtc_id := webrtc_id
    modality := modality
    mode := mode
    is_active := false
    created_at := now
    last_activity := now
    audio_buffer := []
    processing := false }

/-- Source `FastRTCStream.start_streaming` (lines 31-35). -/
def FastRTCStream.start_streaming (s : FastRTCStream) (now : Nat) : FastRTCStream :=
  { s with is_active := true, last_activity := now }

/-- Source `FastRTCStream.stop_streaming` (lines 37-40). -/
def FastRTCStream.stop_streaming (s : FastRTCStream) : FastRTCStream :=
  { s with is_active := false }

/-- First statement of `_process_buffer` (line 56): `self.processing = True`. -/
def FastRTCStream.beginProcessing (s : FastRTCStream) : FastRTCStream :=
  { s with processing := true }

/-- Source `FastRTCStream._process_buffer` (lines 54-71).  Sets `processing`, joins
the buffered chunks in arrival order (the empty-bytes join of `self.audio_buffer`), runs the
processing step, and — only if that step returned normally — clears the
buffer (`self.audio_buffer = []` sits inside the try-block, after the step).
The `except` clause absorbs a failure of the step; the `finally` clause resets
`processing` on both paths.  Returns the post-state together with the joined
payload that was handed to the processing step. -/
def FastRTCStream.process_buffer (s : FastRTCStream) (sinkOk : Bool) :
    FastRTCStream × Chunk :=
  let s1 := s.beginProcessing
  let combined_audio := s1.audio_buffer.flatten
  let s2 := if sinkOk then { s1 with audio_buffer := [] } else s1
  ({ s2 with processing := false }, combined_audio)

/-- Source `FastRTCStream.process_audio_data` (lines 42-52).  Returns the post-state
and the number of `_process_buffer` executions this call performed (0 or 1). -/
def FastRTCStream.process_audio_data (s : FastRTCStream) (now : Nat)
    (sinkOk : Bool) (audio_data : Chunk) : FastRTCStream × Nat :=
  if s.is_active = false then (s, 0)
  else
    let s1 := { s with last_activity := now,
                       audio_buffer := s.audio_buffer ++ [audio_data] }
    if 10 ≤ s1.audio_buffer.length ∧ s1.processing = false then
      ((s1.process_buffer sinkOk).1, 1)
    else (s1, 0)

/-- Payload of `FastRTCStream.get_status` (lines 73-84). -/
structure StreamStatus where
  webrtc_id : String
  modality : String
  mode : String
  is_active : Bool
  created_at : Nat
  last_activity : Nat
  buffer_size : Nat
  processing : Bool
deriving DecidableEq, Repr

/-- Source `FastRTCStream.get_status` (lines 73-84). -/
def FastRTCStream.get_status (s : FastRTCStream) : StreamStatus :=
  { webrtc_id := s.webrtc_id
    modality := s.modality
    mode := s.mode
    is_active := s.is_active
    created_at := s.created_at
    last_activity := s.last_activity
    buffer_size := s.audio_buffer.length
    processing := s.processing }

/-- Mutable state of `FastRTCManager` (lines 86-93).  The Python dict
`self.streams` (insertion-ordered, unique keys) is a list of key/value pairs;
a fresh insertion appends at the end. -/
structure FastRTCManager where
  streams : List (String × FastRTCStream)
  max_streams : Nat
deriving DecidableEq, Repr

/-- Source `FastRTCManager.__init__` (lines 91-93). -/
def FastRTCManager.init : FastRTCManager :=
  { streams := [], max_streams := 100 }

/-- Source `FastRTCManager.get_stream` (lines 111-113): `self.streams.get(webrtc_id)`. -/
def FastRTCManager.get_stream (m : FastRTCManager) (webrtc_id : String) :
    Option FastRTCStream :=
  m.streams.lookup webrtc_id

/-- In-place mutation of the stream object stored under a key: the Python
handlers fetch the object from the dict and mutate it, so the registry entry
under that key now holds the mutated object. -/
def FastRTCManager.setStream (m : FastRTCManager) (webrtc_id : String)
    (s : FastRTCStream) : FastRTCManager :=
  { m with streams := m.streams.map (fun p => if p.1 = webrtc_id then (p.1, s) else p) }

/-- Source `FastRTCManager.create_stream` (lines 95-109).  The three raises, in
source order: invalid id, capacity, duplicate; each happens before any
mutation, so the surviving registry state is unchanged on every failure. -/
def FastRTCManager.create_stream (m : FastRTCManager) (now : Nat)
    (webrtc_id modality mode : String) :
    Except String FastRTCStream × FastRTCManager :=
  if webrtc_id = "" ∨ webrtc_id = "None" then
    (.error "Invalid webrtc_id: cannot be None or empty", m)
  else if m.max_streams ≤ m.streams.length then
    (.error "Maximum number of streams reached", m)
  else if (m.streams.lookup webrtc_id).isSome then
    (.error ("Stream " ++ webrtc_id ++ " already exists"), m)
  else
    let stream := FastRTCStream.init webrtc_id modality mode now
    (.ok stream, { m with streams := m.streams ++ [(webrtc_id, stream)] })

/-- Source `FastRTCManager.remove_stream` (lines 115-121): if the id is present, stop
the stream and delete the entry; otherwise do nothing.  It never raises.
(The `stop_streaming` call mutates the object just before its entry is
deleted, so it leaves no trace in the registry.) -/
def FastRTCManager.remove_stream (m : FastRTCManager) (webrtc_id : String) :
    FastRTCManager :=
  if (m.streams.lookup webrtc_id).isSome then
    { m with streams := m.streams.filter (fun p => p.1 != webrtc_id) }
  else m

/-- Result of `FastRTCManager.process_audio`: the surviving registry state,
how many buffer flushes ran, and whether the `Stream not found` warning
was logged. -/
structure ProcessAudioOutcome where
  manager : FastRTCManager
  flushes : Nat
  not_found_warning : Bool
deriving DecidableEq, Repr

/-- Source `FastRTCManager.process_audio` (lines 123-129). -/
def FastRTCManager.process_audio (m : FastRTCManager) (now : Nat)
    (sinkOk : Bool) (webrtc_id : String) (audio_data : Chunk) :
    ProcessAudioOutcome :=
  match m.get_stream webrtc_id with
  | some stream =>
      let r := stream.process_audio_data now sinkOk audio_data
      { manager := m.setStream webrtc_id r.1, flushes := r.2,
        not_found_warning := false }
  | none =>
      { manager := m, flushes := 0, not_found_warning := true }

/-- CPython `datetime.replace(minute := newMinute)`: keeps every other field
and requires `0 ≤ newMinute ≤ 59`, otherwise raises
`ValueError("minute must be in 0..59")`.  On our minute-valued clock the
result replaces the minute-of-hour `t % 60`. -/
def replaceMinute (t : Nat) (newMinute : Int) : Except String Nat :=
  if 0 ≤ newMinute ∧ newMinute ≤ 59 then .ok (t - t % 60 + newMinute.toNat)
  else .error "minute must be in 0..59"

/-- Source `FastRTCManager.cleanup_inactive_streams` (lines 144-158) with its default
`max_inactive_minutes = 30`.  The cutoff is computed as
`utcnow().replace(minute := utcnow().minute - max_inactive_minutes)`; if that
raises, the exception propagates before any stream is touched.  Otherwise
every stream whose `last_activity` is strictly before the cutoff is collected
and removed via `remove_stream`. -/
def FastRTCManager.cleanup_inactive_streams (m : FastRTCManager) (now : Nat)
    (max_inactive_minutes : Nat) : Except String Unit × FastRTCManager :=
  match replaceMinute now ((now % 60 : Int) - max_inactive_minutes) with
  | .error e => (.error e, m)
  | .ok cutoff_time =>
      let streams_to_remove :=
        (m.streams.filter (fun p => p.2.last_activity < cutoff_time)).map Prod.fst
      (.ok (), streams_to_remove.foldl (fun acc webrtc_id => acc.remove_stream webrtc_id) m)

/-- An inbound FastRTC protocol message (a JSON object): the fields
`handle_fastrtc_message` reads via `message.get`, each absent when the key
is missing. -/
structure FastRTCMessage where
  type : Option String
  webrtc_id : Option String
  data : Option String
deriving DecidableEq, Repr

/-- Python truthiness of an optional string (`if webrtc_id:`): `None` and the
empty string are falsy. -/
def pyTruthy : Option String → Bool
  | some s => s != ""
  | none => false

/-- Rendering of an optional string inside an f-string: `None` prints as
`"None"`, a string prints as itself. -/
def pyStr : Option String → String
  | some s => s
  | none => "None"

/-- Reads `message.get("data", dflt)`. -/
def FastRTCMessage.dataOr (message : FastRTCMessage) (dflt : String) : String :=
  match message.data with
  | some d => d
  | none => dflt

/-- The `output` object of a successful `fetch_output` response
(lines 193-199). -/
structure OutputPayload where
  stream_id : String
  status : StreamStatus
deriving DecidableEq, Repr

/-- A structured result dict returned by `handle_fastrtc_message`. -/
structure DispatchResult where
  status : String
  message : Option String
  output : Option OutputPayload
deriving DecidableEq, Repr

/-- Source `handle_fastrtc_message` (lines 164-228), reading the registry of the
global `fastrtc_manager`.  `none` is the Python `None` the function returns
by falling off the end of a branch (a `send_input` or `fetch_output` message
whose `webrtc_id` is missing or falsy). -/
def handle_fastrtc_message (m : FastRTCManager) (message : FastRTCMessage) :
    Option DispatchResult :=
  match message.type with
  | some "send_input" =>
      if pyTruthy message.webrtc_id then
        match m.get_stream (pyStr message.webrtc_id) with
        | some _ =>
            some { status := "success", message := some "Input processed", output := none }
        | none =>
            some { status := "error", message := some "Stream not found", output := none }
      else none
  | some "fetch_output" =>
      if pyTruthy message.webrtc_id then
        match m.get_stream (pyStr message.webrtc_id) with
        | some stream =>
            some { status := "success", message := none,
                   output := some { stream_id := pyStr message.webrtc_id,
                                    status := stream.get_status } }
        | none =>
            some { status := "error", message := some "Stream not found", output := none }
      else none
  | some "stopword" =>
      some { status := "success", message := some "Stopword detected", output := none }
  | some "error" =>
      some { status := "error", message := some (message.dataOr "Unknown error"), output := none }
  | some "warning" =>
      some { status := "warning", message := some (message.dataOr "Unknown warning"), output := none }
  | some "log" =>
      some { status := "success", message := some "Log recorded", output := none }
  | other =>
      some { status := "error",
             message := some ("Unknown message type: " ++ pyStr other), output := none }

/-- The synthesized SDP block of `create_webrtc_answer` (lines 284-303);
`create_webrtc_offer` emits the same text. -/
def sdpBlock (webrtc_id : String) : String :=
  "v=0\no=- " ++ webrtc_id ++ " 2 IN IP4 127.0.0.1\ns=-\nt=0 0\n" ++
  "a=group:BUNDLE audio\na=extmap-allow-mixed\na=msid-semantic: WMS\n" ++
  "m=audio 9 UDP/TLS/RTP/SAVPF 111\nc=IN IP4 0.0.0.0\na=mid:audio\n" ++
  "a=sendrecv\na=rtpmap:111 opus/48000/2\na=fmtp:111 minptime=10;useinbandfec=1\n" ++
  "a=ssrc:1 cname:fastrtc-audio\na=ssrc:1 msid:fastrtc-audio audio\n" ++
  "a=ssrc:1 mslabel:fastrtc-audio\na=label:audio\na=rtcp-mux"

/-- The offer dict handed to `create_webrtc_answer`: values read via
`offer.get` with defaults. -/
structure OfferDescriptor where
  sdp : Option String
  modality : Option String
  mode : Option String
deriving DecidableEq, Repr

/-- The `meta` object of a successful answer (lines 310-314). -/
structure AnswerMeta where
  modality : String
  mode : String
  created_at : Nat
deriving DecidableEq, Repr

/-- A successful answer payload (lines 306-315). -/
structure AnswerResult where
  status : String
  sdp : String
  webrtc_id : String
  meta : AnswerMeta
deriving DecidableEq, Repr

/-- Source `create_webrtc_answer` (lines 269-315).  The fresh `uuid.uuid4()` string
is an explicit `fresh_id` argument.  The `fastrtc_manager.create_stream` call
is not guarded: a `ValueError` raised by the registry propagates to the
caller. -/
def create_webrtc_answer (fresh_id : String) (now : Nat)
    (offer : OfferDescriptor) (m : FastRTCManager) :
    Except String AnswerResult × FastRTCManager :=
  let modality := offer.modality.getD "audio"
  let mode := offer.mode.getD "send"
  match m.create_stream now fresh_id modality mode with
  | (.error e, m2) => (.error e, m2)
  | (.ok _, m2) =>
      (.ok { status := "success", sdp := sdpBlock fresh_id, webrtc_id := fresh_id,
             meta := { modality := modality, mode := mode, created_at := now } }, m2)

/-- The `meta` object of a failed offer response (main.py lines 129-138,
147-160, 171-182). -/
structure FailMeta where
  error : String
  message : Option String
  limit : Option Nat
deriving DecidableEq, Repr

/-- Response body of the `/webrtc/offer` endpoint. -/
inductive OfferResponse where
  | accepted (answer : AnswerResult)
  | failed (meta : FailMeta)
deriving DecidableEq, Repr

/-- The `/webrtc/offer` endpoint `webrtc_offer` (main.py lines 113-182).
Validation failures raise `HTTPException`, which the enclosing generic
`except` turns into an `internal_server_error` failure body (the exception is
represented here by its detail text); a capacity pre-check returns
`concurrency_limit_reached`; a `ValueError` escaping `create_webrtc_answer`
is caught and returned as `stream_creation_failed` with the message of the error.
The endpoint itself always returns a structured response. -/
def webrtc_offer (fresh_id : String) (now : Nat) (sdp modality mode : String)
    (m : FastRTCManager) : OfferResponse × FastRTCManager :=
  if modality != "audio" ∧ modality != "video" ∧ modality != "audio-video" then
    (.failed { error := "internal_server_error", message := some "Invalid modality",
               limit := none }, m)
  else if mode != "send" ∧ mode != "receive" ∧ mode != "send-receive" then
    (.failed { error := "internal_server_error", message := some "Invalid mode",
               limit := none }, m)
  else if m.max_streams ≤ m.streams.length then
    (.failed { error := "concurrency_limit_reached", message := none,
               limit := some m.max_streams }, m)
  else
    match create_webrtc_answer fresh_id now
        { sdp := some sdp, modality := some modality, mode := some mode } m with
    | (.ok answer, m2) => (.accepted answer, m2)
    | (.error e, m2) =>
        (.failed { error := "stream_creation_failed", message := some e,
                   limit := none }, m2)

/-- Response body of the `DELETE /fastrtc/streams/{webrtc_id}` endpoint. -/
structure RemoveResponse where
  status : String
  message : String
deriving DecidableEq, Repr

/-- The `DELETE /fastrtc/streams/{webrtc_id}` endpoint `remove_fastrtc_stream`
(main.py lines 339-348).  `FastRTCManager.remove_stream` never raises, so the
`except` branch that would produce a 404 `Stream not found` response is
unreachable and the endpoint always reports success. -/
def remove_fastrtc_stream (webrtc_id : String) (m : FastRTCManager) :
    RemoveResponse × FastRTCManager :=
  let m2 := m.remove_stream webrtc_id
  ({ status := "success", message := "Stream " ++ webrtc_id ++ " removed" }, m2)

/-- The message `handle_control_message` sends back to the client (or no
reply at all for an unknown control type, which is only logged). -/
inductive ControlResponse where
  | streaming_started
  | streaming_stopped
  | pong
  | no_reply
deriving DecidableEq, Repr

/-- Source `handle_control_message` (main.py lines 227-283) restricted to its effect
on the per-client `audio_streaming` metadata flag, the stream registry and the
reply sent.  When a `start_streaming`/`stop_streaming` message carries a
truthy `webrtc_id` that is registered, the stream object is started/stopped
in place; when the id is absent or falsy the lookup is silently skipped and
the success reply is sent regardless. -/
def handle_control_message (now : Nat) (msg_type msg_webrtc_id : Option String)
    (audio_streaming : Bool) (m : FastRTCManager) :
    Bool × FastRTCManager × ControlResponse :=
  match msg_type with
  | some "start_streaming" =>
      let m2 :=
        if pyTruthy msg_webrtc_id then
          match m.get_stream (pyStr msg_webrtc_id) with
          | some stream => m.setStream (pyStr msg_webrtc_id) (stream.start_streaming now)
          | none => m
        else m
      (true, m2, .streaming_started)
  | some "stop_streaming" =>
      let m2 :=
        if pyTruthy msg_webrtc_id then
          match m.get_stream (pyStr msg_webrtc_id) with
          | some stream => m.setStream (pyStr msg_webrtc_id) stream.stop_streaming
          | none => m
        else m
      (false, m2, .streaming_stopped)
  | some "ping" => (audio_streaming, m, .pong)
  | _ => (audio_streaming, m, .no_reply)

/-- Iterated `process_audio_data` over a list of chunks at a fixed clock:
final stream plus the total number of buffer flushes performed. -/
def FastRTCStream.appendAll (now : Nat) (sinkOk : Bool) :
    FastRTCStream → List Chunk → FastRTCStream × Nat
  | s, [] => (s, 0)
  | s, c :: rest =>
      let r := s.process_audio_data now sinkOk c
      let r2 := appendAll now sinkOk r.1 rest
      (r2.1, r.2 + r2.2)

/-- Iterated `create_stream` over a list of ids (fixed modality/mode/clock),
stopping at the first raise, as a Python loop of create calls would. -/
def FastRTCManager.createMany (now : Nat) (modality mode : String) :
    FastRTCManager → List String → Except String Unit × FastRTCManager
  | m, [] => (.ok (), m)
  | m, webrtc_id :: rest =>
      match m.create_stream now webrtc_id modality mode with
      | (.ok _, m2) => createMany now modality mode m2 rest
      | (.error e, m2) => (.error e, m2)

/-- The registry invariant of the spec: keys unique, size within capacity. -/
def RegistryInvariant (m : FastRTCManager) : Prop :=
  (m.streams.map Prod.fst).Nodup ∧ m.streams.length ≤ m.max_streams

/-- A registry holding one freshly created (hence inactive) stream `s`. -/
def c1_m : FastRTCManager :=
  { streams := [("s", FastRTCStream.init "s" "audio" "send" 0)], max_streams := 100 }

/-- An active, non-processing stream holding two buffered chunks. -/
def c2_s : FastRTCStream :=
  { webrtc_id := "w", modality := "audio", mode := "send", is_active := true,
    created_at := 0, last_activity := 0, audio_buffer := [[1], [2]],
    processing := false }

/-- The registry after one successful create of id `a`. -/
def c3_m : FastRTCManager :=
  (FastRTCManager.init.create_stream 0 "a" "audio" "send").2

/-- A registry holding one stream last active at minute 574, i.e. 31 minutes
before the clock value 605 (a wall-clock 10:05, minute-of-hour 5). -/
def c4_m : FastRTCManager :=
  { streams := [("idle31", FastRTCStream.init "idle31" "audio" "send" 574)],
    max_streams := 100 }

/-- A registry holding a stream idle 31 minutes and a stream idle 29 minutes
relative to the clock value 635 (a wall-clock 10:35, minute-of-hour 35). -/
def c4_m2 : FastRTCManager :=
  { streams := [("idle31", FastRTCStream.init "idle31" "audio" "send" 604),
                ("idle29", FastRTCStream.init "idle29" "audio" "send" 606)],
    max_streams := 100 }

/-- A registry already holding the id `dup`. -/
def c5_m : FastRTCManager :=
  { streams := [("dup", FastRTCStream.init "dup" "audio" "send" 0)],
    max_streams := 100 }

/-- The decimal ids `"0"`, ..., `"99"`. -/
def hundredIds : List String := (List.range 100).map Nat.repr

/-- The registry produced by 100 successful creates with ids `"0"`..`"99"`:
exactly at the default capacity `max_streams = 100`. -/
def c7_full : FastRTCManager :=
  { streams := (List.range 100).map
      (fun i => (Nat.repr i, FastRTCStream.init (Nat.repr i) "audio" "send" 0)),
    max_streams := 100 }

/-- A registry holding one started (active) stream `s`. -/
def c1_active : FastRTCManager :=
  { streams := [("s", (FastRTCStream.init "s" "audio" "send" 0).start_streaming 0)],
    max_streams := 100 }

/-- Nine identical one-byte chunks. -/
def nineChunks : List Chunk := List.replicate 9 [7]

/-- A registry holding one freshly created (inactive) stream `y`. -/
def c9_m : FastRTCManager :=
  { streams := [("y", FastRTCStream.init "y" "audio" "send" 0)], max_streams := 100 }

/-- Updating the value stored under a key that is present makes `lookup` of
that key return the new value. -/
theorem lookup_map_set {β : Type} (l : List (String × β)) (k : String) (t : β)
    (h : (l.lookup k).isSome) :
    (l.map (fun p => if p.1 = k then (p.1, t) else p)).lookup k = some t := by
  induction l with
  | nil => simp at h
  | cons p l ih =>
    obtain ⟨a, b⟩ := p
    by_cases hk : a = k
    · subst hk
      simp [List.lookup_cons]
    · have h2 : (k == a) = false := beq_false_of_ne (Ne.symm hk)
      simp only [List.map_cons, if_neg hk, List.lookup_cons, h2] at h ⊢
      exact ih h

/-- The keyed value update leaves the key sequence unchanged. -/
theorem map_set_keys {β : Type} (l : List (String × β)) (k : String) (t : β) :
    (l.map (fun p => if p.1 = k then (p.1, t) else p)).map Prod.fst =
      l.map Prod.fst := by
  induction l with
  | nil => rfl
  | cons p l ih =>
    obtain ⟨a, b⟩ := p
    by_cases h : a = k <;> simp [h, ih]

/-- Lemma: `setStream` keeps the key sequence of the registry. -/
theorem setStream_keys (m : FastRTCManager) (webrtc_id : String) (s : FastRTCStream) :
    (m.setStream webrtc_id s).streams.map Prod.fst = m.streams.map Prod.fst :=
  map_set_keys m.streams webrtc_id s

/-- Lemma: `setStream` of a present key is observable through `get_stream`. -/
theorem get_stream_setStream (m : FastRTCManager) (webrtc_id : String)
    (s : FastRTCStream) (h : (m.get_stream webrtc_id).isSome) :
    (m.setStream webrtc_id s).get_stream webrtc_id = some s :=
  lookup_map_set m.streams webrtc_id s h

/-- Equation: `create_stream`, invalid-id branch (source line 97-98). -/
theorem create_stream_invalid (m : FastRTCManager) (now : Nat)
    (webrtc_id modality mode : String) (h : webrtc_id = "" ∨ webrtc_id = "None") :
    m.create_stream now webrtc_id modality mode =
      (.error "Invalid webrtc_id: cannot be None or empty", m) := by
  simp [FastRTCManager.create_stream, h]

/-- Equation: `create_stream`, capacity branch (source line 100-101): checked before
the duplicate check. -/
theorem create_stream_capacity (m : FastRTCManager) (now : Nat)
    (webrtc_id modality mode : String) (hvalid : ¬(webrtc_id = "" ∨ webrtc_id = "None"))
    (hcap : m.max_streams ≤ m.streams.length) :
    m.create_stream now webrtc_id modality mode =
      (.error "Maximum number of streams reached", m) := by
  simp [FastRTCManager.create_stream, hvalid, hcap]

/-- Equation: `create_stream`, duplicate branch (source line 103-104): reached only
below capacity. -/
theorem create_stream_duplicate (m : FastRTCManager) (now : Nat)
    (webrtc_id modality mode : String) (hvalid : ¬(webrtc_id = "" ∨ webrtc_id = "None"))
    (hcap : m.streams.length < m.max_streams)
    (hdup : (m.get_stream webrtc_id).isSome) :
    m.create_stream now webrtc_id modality mode =
      (.error ("Stream " ++ webrtc_id ++ " already exists"), m) := by
  have hcap2 : ¬ m.max_streams ≤ m.streams.length := by omega
  simp [FastRTCManager.create_stream, hvalid, hcap2, FastRTCManager.get_stream] at hdup ⊢
  simp [hdup]

/-- Equation: `create_stream`, success branch (source lines 106-109). -/
theorem create_stream_success (m : FastRTCManager) (now : Nat)
    (webrtc_id modality mode : String) (hvalid : ¬(webrtc_id = "" ∨ webrtc_id = "None"))
    (hcap : m.streams.length < m.max_streams)
    (hfresh : m.get_stream webrtc_id = none) :
    m.create_stream now webrtc_id modality mode =
      (.ok (FastRTCStream.init webrtc_id modality mode now),
       { m with streams :=
           m.streams ++ [(webrtc_id, FastRTCStream.init webrtc_id modality mode now)] }) := by
  have hcap2 : ¬ m.max_streams ≤ m.streams.length := by omega
  simp only [FastRTCManager.get_stream] at hfresh
  simp [FastRTCManager.create_stream, hvalid, hcap2, hfresh]

/-- A key is absent exactly when `lookup` misses. -/
theorem get_stream_none_iff (m : FastRTCManager) (webrtc_id : String) :
    m.get_stream webrtc_id = none ↔ webrtc_id ∉ m.streams.map Prod.fst := by
  simp only [FastRTCManager.get_stream, List.lookup_eq_none_iff, List.mem_map,
    bne_iff_ne, ne_eq, not_exists, not_and]
  constructor
  · intro h p hp hfst
    exact (h p hp) hfst.symm
  · intro h p hp heq
    exact h p hp heq.symm

/-- Lemma: `create_stream` preserves the registry invariant. -/
theorem create_stream_inv (m : FastRTCManager) (now : Nat)
    (webrtc_id modality mode : String) (hm : RegistryInvariant m) :
    RegistryInvariant (m.create_stream now webrtc_id modality mode).2 := by
  by_cases hvalid : webrtc_id = "" ∨ webrtc_id = "None"
  · simpa [create_stream_invalid m now webrtc_id modality mode hvalid] using hm
  · by_cases hcap : m.max_streams ≤ m.streams.length
    · simpa [create_stream_capacity m now webrtc_id modality mode hvalid hcap] using hm
    · have hcap2 : m.streams.length < m.max_streams := by omega
      by_cases hdup : (m.get_stream webrtc_id).isSome
      · simpa [create_stream_duplicate m now webrtc_id modality mode hvalid hcap2 hdup]
          using hm
      · have hfresh : m.get_stream webrtc_id = none := by
          simpa [Option.isSome_iff_exists, Option.eq_none_iff_forall_not_mem] using hdup
        rw [create_stream_success m now webrtc_id modality mode hvalid hcap2 hfresh]
        obtain ⟨hnd, hlen⟩ := hm
        constructor
        · have hnotin : webrtc_id ∉ m.streams.map Prod.fst :=
            (get_stream_none_iff m webrtc_id).mp hfresh
          have hone : (m.streams.map Prod.fst ++ [webrtc_id]).Nodup := by
            rw [List.nodup_append]
            refine ⟨hnd, List.nodup_singleton _, ?_⟩
            intro a ha hb
            simp only [List.mem_singleton] at hb
            exact hnotin (hb ▸ ha)
          simpa using hone
        · simpa using hcap2

/-- Lemma: `remove_stream` preserves the registry invariant. -/
theorem remove_stream_inv (m : FastRTCManager) (webrtc_id : String)
    (hm : RegistryInvariant m) : RegistryInvariant (m.remove_stream webrtc_id) := by
  obtain ⟨hnd, hlen⟩ := hm
  unfold FastRTCManager.remove_stream
  split
  · constructor
    · exact hnd.sublist ((m.streams.filter_sublist).map Prod.fst)
    · exact le_trans (m.streams.length_filter_le _) hlen
  · exact ⟨hnd, hlen⟩

/-- Lemma: `setStream` preserves the registry invariant. -/
theorem setStream_inv (m : FastRTCManager) (webrtc_id : String) (s : FastRTCStream)
    (hm : RegistryInvariant m) : RegistryInvariant (m.setStream webrtc_id s) := by
  obtain ⟨hnd, hlen⟩ := hm
  refine ⟨?_, ?_⟩
  · rw [setStream_keys]; exact hnd
  · simpa [FastRTCManager.setStream] using hlen

/-- Lemma: `process_audio` preserves the registry invariant. -/
theorem process_audio_inv (m : FastRTCManager) (now : Nat) (sinkOk : Bool)
    (webrtc_id : String) (audio_data : Chunk) (hm : RegistryInvariant m) :
    RegistryInvariant (m.process_audio now sinkOk webrtc_id audio_data).manager := by
  unfold FastRTCManager.process_audio
  cases h : m.get_stream webrtc_id with
  | some s => exact setStream_inv m webrtc_id _ hm
  | none => exact hm

/-- Folding `remove_stream` over any id list preserves the registry invariant. -/
theorem foldl_remove_inv (ids : List String) :
    ∀ m : FastRTCManager, RegistryInvariant m →
      RegistryInvariant (ids.foldl (fun acc webrtc_id => acc.remove_stream webrtc_id) m) := by
  induction ids with
  | nil => intro m hm; exact hm
  | cons a rest ih => intro m hm; exact ih _ (remove_stream_inv m a hm)

/-- Lemma: `cleanup_inactive_streams` preserves the registry invariant. -/
theorem cleanup_inv (m : FastRTCManager) (now : Nat) (k : Nat)
    (hm : RegistryInvariant m) :
    RegistryInvariant (m.cleanup_inactive_streams now k).2 := by
  unfold FastRTCManager.cleanup_inactive_streams
  cases h : replaceMinute now ((now % 60 : Int) - k) with
  | error e => exact hm
  | ok cutoff => exact foldl_remove_inv _ m hm

/-- Lemma: `handle_control_message` preserves the registry invariant. -/
theorem handle_control_inv (now : Nat) (msg_type msg_webrtc_id : Option String)
    (flag : Bool) (m : FastRTCManager) (hm : RegistryInvariant m) :
    RegistryInvariant (handle_control_message now msg_type msg_webrtc_id flag m).2.1 := by
  unfold handle_control_message
  rcases msg_type with _ | t
  · exact hm
  · by_cases h1 : t = "start_streaming"
    · subst h1
      simp only
      by_cases h2 : pyTruthy msg_webrtc_id
      · simp only [h2, if_true]
        cases h3 : m.get_stream (pyStr msg_webrtc_id) with
        | some s => exact setStream_inv m _ _ hm
        | none => exact hm
      · simp only [h2, if_false]; exact hm
    · by_cases h4 : t = "stop_streaming"
      · subst h4
        simp only
        by_cases h2 : pyTruthy msg_webrtc_id
        · simp only [h2, if_true]
          cases h3 : m.get_stream (pyStr msg_webrtc_id) with
          | some s => exact setStream_inv m _ _ hm
          | none => exact hm
        · simp only [h2, if_false]; exact hm
      · by_cases h5 : t = "ping"
        · subst h5; exact hm
        · simp only
          split
          all_goals first
            | exact hm
            | (split
               · split
                 · exact setStream_inv m _ _ hm
                 · exact hm
               · exact hm)

/-- A run of creates with distinct, valid, fresh ids that fits under the
capacity bound succeeds entirely, and each create grows the registry by one. -/
theorem createMany_ok (now : Nat) (modality mode : String) :
    ∀ (ids : List String) (m : FastRTCManager),
      ids.Nodup →
      (∀ webrtc_id ∈ ids, ¬(webrtc_id = "" ∨ webrtc_id = "None")) →
      (∀ webrtc_id ∈ ids, m.get_stream webrtc_id = none) →
      m.streams.length + ids.length ≤ m.max_streams →
      (FastRTCManager.createMany now modality mode m ids).1 = .ok () ∧
      (FastRTCManager.createMany now modality mode m ids).2.streams.length
        = m.streams.length + ids.length ∧
      (FastRTCManager.createMany now modality mode m ids).2.max_streams
        = m.max_streams := by
  intro ids
  induction ids with
  | nil =>
    intro m _ _ _ _
    exact ⟨rfl, by simp [FastRTCManager.createMany], rfl⟩
  | cons a rest ih =>
    intro m hnd hvalid hfresh hlen
    have hva : ¬(a = "" ∨ a = "None") := hvalid a (by simp)
    have hfa : m.get_stream a = none := hfresh a (by simp)
    have hcap : m.streams.length < m.max_streams := by
      simp only [List.length_cons] at hlen; omega
    have hcreate := create_stream_success m now a modality mode hva hcap hfa
    have hstep : FastRTCManager.createMany now modality mode m (a :: rest) =
        FastRTCManager.createMany now modality mode
          { m with streams :=
              m.streams ++ [(a, FastRTCStream.init a modality mode now)] } rest := by
      simp [FastRTCManager.createMany, hcreate]
    have hanotin : a ∉ rest := (List.nodup_cons.mp hnd).1
    have hrest := ih { m with streams :=
        m.streams ++ [(a, FastRTCStream.init a modality mode now)] }
      (List.nodup_cons.mp hnd).2
      (fun webrtc_id hw => hvalid webrtc_id (List.mem_cons_of_mem a hw))
      (fun webrtc_id hw => by
        have hne : (webrtc_id == a) = false := by
          refine beq_false_of_ne ?_
          intro hx
          exact hanotin (hx ▸ hw)
        have hold : m.get_stream webrtc_id = none :=
          hfresh webrtc_id (List.mem_cons_of_mem a hw)
        simp only [FastRTCManager.get_stream] at hold ⊢
        rw [List.lookup_append, hold]
        simp [List.lookup_cons, hne])
      (by simp only [List.length_append, List.length_cons, List.length_nil] at hlen ⊢
          omega)
    rw [hstep]
    refine ⟨hrest.1, ?_, hrest.2.2⟩
    rw [hrest.2.1]
    simp only [List.length_append, List.length_cons, List.length_nil]
    omega

/-- An appended chunk that keeps the buffer below the flush threshold is
recorded without a flush. -/
theorem process_audio_data_small (s : FastRTCStream) (now : Nat) (sinkOk : Bool)
    (c : Chunk) (hact : s.is_active = true)
    (hlen : s.audio_buffer.length + 1 ≤ 9) :
    s.process_audio_data now sinkOk c =
      ({ s with audio_buffer := s.audio_buffer ++ [c], last_activity := now }, 0) := by
  unfold FastRTCStream.process_audio_data
  split
  · next h => simp [hact] at h
  · dsimp only
    split
    · next h =>
      exfalso
      have h1 := h.1
      simp only [List.length_append, List.length_cons, List.length_nil] at h1
      omega
    · rfl

/-- The append that reaches the threshold on a non-processing stream flushes
exactly once. -/
theorem process_audio_data_flush (s : FastRTCStream) (now : Nat) (sinkOk : Bool)
    (c : Chunk) (hact : s.is_active = true) (hproc : s.processing = false)
    (hlen : s.audio_buffer.length = 9) :
    s.process_audio_data now sinkOk c =
      (({ s with audio_buffer := s.audio_buffer ++ [c],
                 last_activity := now } : FastRTCStream).process_buffer sinkOk
        |>.1, 1) := by
  unfold FastRTCStream.process_audio_data
  split
  · next h => simp [hact] at h
  · dsimp only
    split
    · rfl
    · next h =>
      exfalso
      apply h
      constructor
      · simp only [List.length_append, List.length_cons, List.length_nil]
        omega
      · exact hproc

/-- A run of appends that stays strictly below the flush threshold just
accumulates the chunks in order, refreshes `last_activity`, and never
flushes. -/
theorem appendAll_no_flush (now : Nat) (sinkOk : Bool) :
    ∀ (chunks : List Chunk) (s : FastRTCStream), s.is_active = true →
      s.audio_buffer.length + chunks.length ≤ 9 → chunks ≠ [] →
      FastRTCStream.appendAll now sinkOk s chunks =
        ({ s with audio_buffer := s.audio_buffer ++ chunks, last_activity := now }, 0) := by
  intro chunks
  induction chunks with
  | nil => intro s _ _ hne; exact absurd rfl hne
  | cons c rest ih =>
    intro s hact hlen _
    have hsmall : s.audio_buffer.length + 1 ≤ 9 := by
      simp only [List.length_cons] at hlen; omega
    have hstep := process_audio_data_small s now sinkOk c hact hsmall
    rcases List.eq_nil_or_concat rest with hnil | hne
    · subst hnil
      simp [FastRTCStream.appendAll, hstep]
    · have hrestne : rest ≠ [] := by
        rcases hne with ⟨l, x, rfl⟩
        simp
      have hrec := ih { s with audio_buffer := s.audio_buffer ++ [c], last_activity := now }
        (by simpa using hact)
        (by simp only [List.length_append, List.length_cons, List.length_nil] at hlen ⊢
            omega)
        hrestne
      simp only [FastRTCStream.appendAll, hstep, hrec]
      simp

/-- Lemma: `appendAll` splits over list concatenation. -/
theorem appendAll_append (now : Nat) (sinkOk : Bool) :
    ∀ (l1 l2 : List Chunk) (s : FastRTCStream),
      FastRTCStream.appendAll now sinkOk s (l1 ++ l2) =
        ((FastRTCStream.appendAll now sinkOk
            (FastRTCStream.appendAll now sinkOk s l1).1 l2).1,
         (FastRTCStream.appendAll now sinkOk s l1).2 +
           (FastRTCStream.appendAll now sinkOk
             (FastRTCStream.appendAll now sinkOk s l1).1 l2).2) := by
  intro l1
  induction l1 with
  | nil => intro l2 s; simp [FastRTCStream.appendAll]
  | cons c rest ih =>
    intro l2 s
    simp only [List.cons_append, FastRTCStream.appendAll, List.append_eq]
    rw [ih]
    simp [Nat.add_assoc]

/-- C1 counterexample: the claim says that when the stream id is registered
the chunk is appended and `lastActivity` updated, but for the registered —
never started, hence inactive — stream of `c1_m` an append at clock 5
mutates nothing: the buffer stays empty, `last_activity` stays 0, and no
flush runs. -/
theorem C1_counterexample :
    (c1_m.process_audio 5 true "s" [1]).manager = c1_m ∧
    ((c1_m.process_audio 5 true "s" [1]).manager.get_stream "s").map
        FastRTCStream.audio_buffer = some [] ∧
    ((c1_m.process_audio 5 true "s" [1]).manager.get_stream "s").map
        FastRTCStream.last_activity = some 0 ∧
    (c1_m.process_audio 5 true "s" [1]).flushes = 0 := by
  refine ⟨rfl, rfl, rfl, rfl⟩

/-- C2 counterexample: the claim says flush clears the buffer on every
execution path including a raising sink, but when the processing step raises
(`sinkOk = false`) the clearing statement inside the try-block is skipped and
the two buffered chunks survive. -/
theorem C2_counterexample :
    (c2_s.process_buffer false).1.audio_buffer = [[1], [2]] ∧
    ¬(c2_s.process_buffer false).1.audio_buffer = [] := by
  exact ⟨rfl, by decide⟩

/-- C2 (amended): flush sets the `processing` guard first, hands the chunks
joined in arrival order to the sink, clears the guard on every path, and
clears the buffer exactly when the sink step succeeds — on a sink failure
(absorbed, never propagated: the function is total) the buffer is retained;
the stream stays usable either way. -/
theorem C2_flush_amended (s : FastRTCStream) (sinkOk : Bool) :
    s.beginProcessing.processing = true ∧
    (s.process_buffer sinkOk).2 = s.audio_buffer.flatten ∧
    (s.process_buffer sinkOk).1.processing = false ∧
    (sinkOk = true → (s.process_buffer sinkOk).1.audio_buffer = []) ∧
    (sinkOk = false → (s.process_buffer sinkOk).1.audio_buffer = s.audio_buffer) ∧
    (s.process_buffer sinkOk).1.is_active = s.is_active ∧
    (s.process_buffer sinkOk).1.webrtc_id = s.webrtc_id ∧
    (s.process_buffer sinkOk).1.last_activity = s.last_activity := by
  cases sinkOk <;>
    simp [FastRTCStream.process_buffer, FastRTCStream.beginProcessing]

/-- Witness for C2: the amended flush law applied to the concrete stream
`c2_s` at both sink outcomes. -/
theorem C2_flush_amended_witness :
    ((c2_s.process_buffer true).1.audio_buffer = [] ∧
     (c2_s.process_buffer false).1.audio_buffer = c2_s.audio_buffer) ∧
    (c2_s.process_buffer true).2 = c2_s.audio_buffer.flatten := by
  exact ⟨⟨(C2_flush_amended c2_s true).2.2.2.1 rfl,
          (C2_flush_amended c2_s false).2.2.2.2.1 rfl⟩,
         (C2_flush_amended c2_s true).2.1⟩

/-- C3: the DELETE endpoint evaluated at the failing input.  Removing the
unknown id `ghost` silently succeeds — `remove_stream` no-ops, the endpoint
returns `status = success` and the 404 `Stream not found` branch is
unreachable — where the claim demands a `NotFound` failure.  For a present
id the removal part does work: the entry is deleted and a subsequent get
misses. -/
theorem C3_remove_eval :
    (remove_fastrtc_stream "ghost" FastRTCManager.init).1 =
      { status := "success", message := "Stream ghost removed" } ∧
    (remove_fastrtc_stream "ghost" FastRTCManager.init).2 = FastRTCManager.init ∧
    (c3_m.get_stream "a").isSome = true ∧
    (remove_fastrtc_stream "a" c3_m).1.status = "success" ∧
    (remove_fastrtc_stream "a" c3_m).2.get_stream "a" = none := by
  refine ⟨rfl, rfl, rfl, rfl, rfl⟩

/-- C4: the idle sweep evaluated at the failing input.  At clock 605
(a 10:05 wall clock, minute-of-hour 5) the cutoff computation
`utcnow().replace(minute := 5 - 30)` raises
`ValueError("minute must be in 0..59")` and the sweep removes nothing — the
claim says the sweep completes for every current time.  At clock 635
(minute-of-hour 35) the computation survives and behaves as claimed: the
stream idle 31 minutes is removed, the stream idle 29 minutes is retained. -/
theorem C4_cleanup_eval :
    (c4_m.cleanup_inactive_streams 605 30).1 = .error "minute must be in 0..59" ∧
    (c4_m.cleanup_inactive_streams 605 30).2 = c4_m ∧
    (c4_m2.cleanup_inactive_streams 635 30).1 = .ok () ∧
    (c4_m2.cleanup_inactive_streams 635 30).2.get_stream "idle31" = none ∧
    ((c4_m2.cleanup_inactive_streams 635 30).2.get_stream "idle29").isSome = true := by
  refine ⟨rfl, rfl, rfl, rfl, rfl⟩

/-- C5 counterexample: with the registry `c5_m` already holding the id `dup`,
`create_webrtc_answer` invoked with that id as its freshly generated one does
not return a typed failure result — the registry `ValueError` propagates
out of it (an `Except.error`, i.e. a raise). -/
theorem C5_counterexample :
    (create_webrtc_answer "dup" 0
        { sdp := none, modality := some "audio", mode := some "send" } c5_m).1 =
      .error "Stream dup already exists" := by
  rfl

/-- C6: dispatch evaluated at the failing input.  A `send_input` message with
no `webrtc_id` makes `handle_fastrtc_message` fall off the end of its branch
and return Python `None` — no structured result, contradicting the claim (and
the declared return annotation of the function: a dict) — while for an
unrecognized tag it does return the claimed
`status = error, "Unknown message type: <tag>"` result. -/
theorem C6_dispatch_eval :
    handle_fastrtc_message FastRTCManager.init
        { type := some "send_input", webrtc_id := none, data := none } = none ∧
    handle_fastrtc_message FastRTCManager.init
        { type := some "bogus", webrtc_id := none, data := none } =
      some { status := "error", message := some "Unknown message type: bogus",
             output := none } := by
  refine ⟨rfl, rfl⟩

/-- C9 counterexample: the claim says start fails with `NotFound` when the id
is absent, but a `start_streaming` control message for the unregistered id
`x` leaves the registry untouched and still reports `streaming_started`. -/
theorem C9_counterexample :
    handle_control_message 0 (some "start_streaming") (some "x") false
        FastRTCManager.init =
      (true, FastRTCManager.init, ControlResponse.streaming_started) := by
  rfl

/-- C10: every stream returned by a successful `create_stream` starts
inactive with an empty buffer and no flush in flight, and
`process_audio_data` on an inactive stream performs no mutation at all — no
buffering, no `last_activity` update, no flush. -/
theorem C10_inactive_frame :
    (∀ (m : FastRTCManager) (now : Nat) (webrtc_id modality mode : String)
        (s : FastRTCStream),
        (m.create_stream now webrtc_id modality mode).1 = .ok s →
        s.is_active = false ∧ s.audio_buffer = [] ∧ s.processing = false) ∧
    (∀ (s : FastRTCStream) (now : Nat) (sinkOk : Bool) (audio_data : Chunk),
        s.is_active = false →
        s.process_audio_data now sinkOk audio_data = (s, 0)) := by
  constructor
  · intro m now webrtc_id modality mode s h
    unfold FastRTCManager.create_stream at h
    split at h
    · simp at h
    · split at h
      · simp at h
      · split at h
        · simp at h
        · dsimp only at h
          injection h with h2
          subst h2
          exact ⟨rfl, rfl, rfl⟩
  · intro s now sinkOk audio_data h
    simp [FastRTCStream.process_audio_data, h]

/-- Witness for C10: the created stream `a` is inactive with empty buffer,
and an append to it at clock 5 is a complete no-op. -/
theorem C10_inactive_frame_witness :
    ((FastRTCStream.init "a" "audio" "send" 0).is_active = false ∧
     (FastRTCStream.init "a" "audio" "send" 0).audio_buffer = [] ∧
     (FastRTCStream.init "a" "audio" "send" 0).processing = false) ∧
    (FastRTCStream.init "a" "audio" "send" 0).process_audio_data 5 true [7] =
      (FastRTCStream.init "a" "audio" "send" 0, 0) := by
  refine ⟨C10_inactive_frame.1 FastRTCManager.init 0 "a" "audio" "send" _ rfl,
          C10_inactive_frame.2 _ 5 true [7] rfl⟩

/-- An append to an active stream always refreshes `last_activity`, whether
or not it triggers a flush. -/
theorem process_audio_data_last (s : FastRTCStream) (now : Nat) (sinkOk : Bool)
    (c : Chunk) (hact : s.is_active = true) :
    (s.process_audio_data now sinkOk c).1.last_activity = now := by
  unfold FastRTCStream.process_audio_data
  split
  · next h => simp [hact] at h
  · dsimp only
    split
    · cases sinkOk <;>
        simp [FastRTCStream.process_buffer, FastRTCStream.beginProcessing]
    · rfl

/-- An append to an active stream that triggers no flush leaves the chunk at
the end of the buffer. -/
theorem process_audio_data_no_flush_buffer (s : FastRTCStream) (now : Nat)
    (sinkOk : Bool) (c : Chunk) (hact : s.is_active = true) :
    (s.process_audio_data now sinkOk c).2 = 0 →
    (s.process_audio_data now sinkOk c).1.audio_buffer = s.audio_buffer ++ [c] := by
  unfold FastRTCStream.process_audio_data
  split
  · next h => simp [hact] at h
  · dsimp only
    split
    · intro h0; cases h0
    · intro _; rfl

/-- C1 (amended): for an unknown stream id, append reports the missing stream
(warning, no raise) and mutates nothing; for a registered stream the registry
entry is updated in place, and when the stream is moreover *active* the chunk
is appended and `lastActivity` refreshed (a registered but inactive stream
ignores the chunk, cf. C10); starting from an empty buffer on an active,
non-processing stream, 9 appends leave the buffer holding exactly those
chunks with no flush, and the 10th append triggers exactly one flush, after
which the buffer is empty when the sink step succeeds (on a sink failure the
flush still runs once but the buffer is retained, cf. C2). -/
theorem C1_append_amended :
    (∀ (m : FastRTCManager) (now : Nat) (sinkOk : Bool) (webrtc_id : String)
        (audio_data : Chunk), m.get_stream webrtc_id = none →
        m.process_audio now sinkOk webrtc_id audio_data =
          { manager := m, flushes := 0, not_found_warning := true }) ∧
    (∀ (m : FastRTCManager) (now : Nat) (sinkOk : Bool) (webrtc_id : String)
        (audio_data : Chunk) (s : FastRTCStream),
        m.get_stream webrtc_id = some s →
        (m.process_audio now sinkOk webrtc_id audio_data).not_found_warning = false ∧
        (m.process_audio now sinkOk webrtc_id audio_data).manager.get_stream webrtc_id =
          some (s.process_audio_data now sinkOk audio_data).1 ∧
        (m.process_audio now sinkOk webrtc_id audio_data).flushes =
          (s.process_audio_data now sinkOk audio_data).2 ∧
        (s.is_active = true →
          (s.process_audio_data now sinkOk audio_data).1.last_activity = now ∧
          ((s.process_audio_data now sinkOk audio_data).2 = 0 →
            (s.process_audio_data now sinkOk audio_data).1.audio_buffer =
              s.audio_buffer ++ [audio_data]))) ∧
    (∀ (now : Nat) (sinkOk : Bool) (s : FastRTCStream) (chunks : List Chunk),
        s.is_active = true → s.audio_buffer = [] → chunks.length = 9 →
        FastRTCStream.appendAll now sinkOk s chunks =
          ({ s with audio_buffer := chunks, last_activity := now }, 0) ∧
        chunks ≠ []) ∧
    (∀ (now : Nat) (sinkOk : Bool) (s : FastRTCStream) (chunks : List Chunk)
        (c10 : Chunk),
        s.is_active = true → s.processing = false → s.audio_buffer = [] →
        chunks.length = 9 →
        (FastRTCStream.appendAll now sinkOk s (chunks ++ [c10])).2 = 1 ∧
        (sinkOk = true →
          (FastRTCStream.appendAll now sinkOk s (chunks ++ [c10])).1.audio_buffer =
            [])) := by
  have hnine : ∀ (now : Nat) (sinkOk : Bool) (s : FastRTCStream)
      (chunks : List Chunk), s.is_active = true → s.audio_buffer = [] →
      chunks.length = 9 →
      FastRTCStream.appendAll now sinkOk s chunks =
        ({ s with audio_buffer := chunks, last_activity := now }, 0) ∧
      chunks ≠ [] := by
    intro now sinkOk s chunks hact hbuf hlen
    have hne : chunks ≠ [] := by
      intro hx; rw [hx] at hlen; cases hlen
    have h := appendAll_no_flush now sinkOk chunks s hact
      (by rw [hbuf]; simp [hlen]) hne
    rw [h, hbuf]
    exact ⟨by simp, hne⟩
  refine ⟨?_, ?_, hnine, ?_⟩
  · intro m now sinkOk webrtc_id audio_data h
    simp [FastRTCManager.process_audio, h]
  · intro m now sinkOk webrtc_id audio_data s h
    have hsome : (m.get_stream webrtc_id).isSome := by rw [h]; rfl
    refine ⟨?_, ?_, ?_, ?_⟩
    · simp [FastRTCManager.process_audio, h]
    · simp only [FastRTCManager.process_audio, h]
      exact get_stream_setStream m webrtc_id _ hsome
    · simp [FastRTCManager.process_audio, h]
    · intro hact
      exact ⟨process_audio_data_last s now sinkOk audio_data hact,
             process_audio_data_no_flush_buffer s now sinkOk audio_data hact⟩
  · intro now sinkOk s chunks c10 hact hproc hbuf hlen
    have h9 := (hnine now sinkOk s chunks hact hbuf hlen).1
    have hsplit := appendAll_append now sinkOk chunks [c10] s
    rw [h9] at hsplit
    have hflush := process_audio_data_flush
      { s with audio_buffer := chunks, last_activity := now } now sinkOk c10
      (by simpa using hact) (by simpa using hproc) (by simpa using hlen)
    have hsingle : FastRTCStream.appendAll now sinkOk
        ({ s with audio_buffer := chunks, last_activity := now }) [c10] =
        ((({ s with audio_buffer := chunks, last_activity := now }
            : FastRTCStream).process_audio_data now sinkOk c10).1,
         (({ s with audio_buffer := chunks, last_activity := now }
            : FastRTCStream).process_audio_data now sinkOk c10).2) := by
      simp [FastRTCStream.appendAll]
    rw [hflush] at hsingle
    rw [hsplit, hsingle]
    refine ⟨rfl, ?_⟩
    intro hok
    subst hok
    simp [FastRTCStream.process_buffer, FastRTCStream.beginProcessing]

/-- Witness for C1: the amended append law exercised at concrete inputs — an
unknown id on the empty registry, the registered active stream of
`c1_active`, nine appends with no flush, and the flushing tenth append. -/
theorem C1_append_amended_witness :
    FastRTCManager.init.process_audio 3 true "x" [1] =
      { manager := FastRTCManager.init, flushes := 0, not_found_warning := true } ∧
    (c1_active.process_audio 3 true "s" [1]).not_found_warning = false ∧
    (FastRTCStream.appendAll 3 true
        ((FastRTCStream.init "s" "audio" "send" 0).start_streaming 0) nineChunks).2
      = 0 ∧
    (FastRTCStream.appendAll 3 true
        ((FastRTCStream.init "s" "audio" "send" 0).start_streaming 0)
        (nineChunks ++ [[8]])).2 = 1 ∧
    (FastRTCStream.appendAll 3 true
        ((FastRTCStream.init "s" "audio" "send" 0).start_streaming 0)
        (nineChunks ++ [[8]])).1.audio_buffer = [] := by
  have h9 := C1_append_amended.2.2.1 3 true
    ((FastRTCStream.init "s" "audio" "send" 0).start_streaming 0) nineChunks
    rfl rfl rfl
  have h10 := C1_append_amended.2.2.2 3 true
    ((FastRTCStream.init "s" "audio" "send" 0).start_streaming 0) nineChunks [8]
    rfl rfl rfl rfl
  refine ⟨C1_append_amended.1 FastRTCManager.init 3 true "x" [1] rfl,
          (C1_append_amended.2.1 c1_active 3 true "s" [1] _ rfl).1,
          ?_, h10.1, h10.2 rfl⟩
  rw [h9.1]

/-- C5 (amended): on `CapacityExceeded` or `DuplicateId` from the registry,
`create_webrtc_answer` does not return a typed failure — it propagates the
registry `ValueError` (registry unchanged); it is the calling
`/webrtc/offer` endpoint that maps the expected conditions to a typed
failure response (`concurrency_limit_reached` via its pre-check,
`stream_creation_failed` carrying the error message via its
`except ValueError` handler) and never propagates them. -/
theorem C5_answer_amended :
    (∀ (fresh_id : String) (now : Nat) (offer : OfferDescriptor)
        (m : FastRTCManager), ¬(fresh_id = "" ∨ fresh_id = "None") →
        m.max_streams ≤ m.streams.length →
        create_webrtc_answer fresh_id now offer m =
          (.error "Maximum number of streams reached", m)) ∧
    (∀ (fresh_id : String) (now : Nat) (offer : OfferDescriptor)
        (m : FastRTCManager), ¬(fresh_id = "" ∨ fresh_id = "None") →
        m.streams.length < m.max_streams →
        (m.get_stream fresh_id).isSome →
        create_webrtc_answer fresh_id now offer m =
          (.error ("Stream " ++ fresh_id ++ " already exists"), m)) ∧
    (∀ (fresh_id : String) (now : Nat) (sdp : String) (m : FastRTCManager),
        m.max_streams ≤ m.streams.length →
        webrtc_offer fresh_id now sdp "audio" "send" m =
          (.failed { error := "concurrency_limit_reached", message := none,
                     limit := some m.max_streams }, m)) ∧
    (∀ (fresh_id : String) (now : Nat) (sdp : String) (m : FastRTCManager),
        ¬(fresh_id = "" ∨ fresh_id = "None") →
        m.streams.length < m.max_streams →
        (m.get_stream fresh_id).isSome →
        webrtc_offer fresh_id now sdp "audio" "send" m =
          (.failed { error := "stream_creation_failed",
                     message := some ("Stream " ++ fresh_id ++ " already exists"),
                     limit := none }, m)) := by
  refine ⟨?_, ?_, ?_, ?_⟩
  · intro fresh_id now offer m hvalid hcap
    have hc := create_stream_capacity m now fresh_id (offer.modality.getD "audio")
      (offer.mode.getD "send") hvalid hcap
    simp [create_webrtc_answer, hc]
  · intro fresh_id now offer m hvalid hcap hdup
    have hd := create_stream_duplicate m now fresh_id (offer.modality.getD "audio")
      (offer.mode.getD "send") hvalid hcap hdup
    simp [create_webrtc_answer, hd]
  · intro fresh_id now sdp m hcap
    unfold webrtc_offer
    rw [if_neg (by decide), if_neg (by decide), if_pos hcap]
  · intro fresh_id now sdp m hvalid hcap hdup
    unfold webrtc_offer
    rw [if_neg (by decide), if_neg (by decide), if_neg (by omega)]
    have hd := create_stream_duplicate m now fresh_id "audio" "send" hvalid hcap hdup
    simp [create_webrtc_answer, hd]

/-- Witness for C5: the amended law at the concrete registry `c5_m` (holding
`dup`) and at the full registry `c7_full`: the raise out of
`create_webrtc_answer` and the typed failures produced by the endpoint. -/
theorem C5_answer_amended_witness :
    create_webrtc_answer "dup" 7
        { sdp := none, modality := some "audio", mode := some "send" } c5_m =
      (.error "Stream dup already exists", c5_m) ∧
    webrtc_offer "dup" 7 "sdp-text" "audio" "send" c5_m =
      (.failed { error := "stream_creation_failed",
                 message := some "Stream dup already exists", limit := none }, c5_m) ∧
    webrtc_offer "f" 7 "sdp-text" "audio" "send" c7_full =
      (.failed { error := "concurrency_limit_reached", message := none,
                 limit := some 100 }, c7_full) := by
  have h1 := C5_answer_amended.2.1 "dup" 7
    { sdp := none, modality := some "audio", mode := some "send" } c5_m
    (by decide) (by decide) (by rfl)
  have h2 := C5_answer_amended.2.2.2 "dup" 7 "sdp-text" c5_m
    (by decide) (by decide) (by rfl)
  have h3 := C5_answer_amended.2.2.1 "f" 7 "sdp-text" c7_full (by decide)
  refine ⟨?_, ?_, ?_⟩
  · rw [h1]
    rfl
  · rw [h2]
    rfl
  · rw [h3]
    rfl

set_option maxRecDepth 40000 in
/-- C7 counterexample: the counterparts of the error cascade of the claim are
checked in a different order — capacity before duplicate.  The reachable
registry `c7_full` (what 100 creates with ids `"0"`..`"99"` produce from a
fresh manager) is at capacity *and* already contains the id `"0"`; creating
`"0"` again fails with the capacity error, not the `DuplicateId` error that the
cascade of the claim prescribes for a present id. -/
theorem C7_counterexample :
    (FastRTCManager.createMany 0 "audio" "send" FastRTCManager.init hundredIds).2 =
      c7_full ∧
    (c7_full.get_stream "0").isSome = true ∧
    c7_full.create_stream 0 "0" "audio" "send" =
      (.error "Maximum number of streams reached", c7_full) ∧
    "Maximum number of streams reached" ≠ "Stream 0 already exists" := by
  refine ⟨rfl, rfl, rfl, by decide⟩

/-- C7 (amended): `create_stream` fails with the invalid-id `ValueError` if
the id is empty or the sentinel `"None"`; otherwise fails with the
capacity `ValueError` if the registry size is at least `maxStreams` (the
capacity check runs *before* the duplicate check); otherwise fails with the
duplicate `ValueError` if the id is already present; on success it inserts a
stream in the created (inactive) state and returns it, growing the registry
by one and making the id retrievable.  Every failing create leaves the
registry unchanged. -/
theorem C7_create_amended :
    (∀ (m : FastRTCManager) (now : Nat) (webrtc_id modality mode : String),
        webrtc_id = "" ∨ webrtc_id = "None" →
        m.create_stream now webrtc_id modality mode =
          (.error "Invalid webrtc_id: cannot be None or empty", m)) ∧
    (∀ (m : FastRTCManager) (now : Nat) (webrtc_id modality mode : String),
        ¬(webrtc_id = "" ∨ webrtc_id = "None") →
        m.max_streams ≤ m.streams.length →
        m.create_stream now webrtc_id modality mode =
          (.error "Maximum number of streams reached", m)) ∧
    (∀ (m : FastRTCManager) (now : Nat) (webrtc_id modality mode : String),
        ¬(webrtc_id = "" ∨ webrtc_id = "None") →
        m.streams.length < m.max_streams →
        (m.get_stream webrtc_id).isSome →
        m.create_stream now webrtc_id modality mode =
          (.error ("Stream " ++ webrtc_id ++ " already exists"), m)) ∧
    (∀ (m : FastRTCManager) (now : Nat) (webrtc_id modality mode : String),
        ¬(webrtc_id = "" ∨ webrtc_id = "None") →
        m.streams.length < m.max_streams →
        m.get_stream webrtc_id = none →
        m.create_stream now webrtc_id modality mode =
          (.ok (FastRTCStream.init webrtc_id modality mode now),
           { m with streams := m.streams ++
               [(webrtc_id, FastRTCStream.init webrtc_id modality mode now)] }) ∧
        (FastRTCStream.init webrtc_id modality mode now).is_active = false ∧
        ({ m with streams := m.streams ++
             [(webrtc_id, FastRTCStream.init webrtc_id modality mode now)]
           : FastRTCManager }).get_stream webrtc_id =
          some (FastRTCStream.init webrtc_id modality mode now) ∧
        ({ m with streams := m.streams ++
             [(webrtc_id, FastRTCStream.init webrtc_id modality mode now)]
           : FastRTCManager }).streams.length = m.streams.length + 1) := by
  refine ⟨create_stream_invalid, create_stream_capacity, create_stream_duplicate, ?_⟩
  intro m now webrtc_id modality mode hvalid hcap hfresh
  refine ⟨create_stream_success m now webrtc_id modality mode hvalid hcap hfresh,
          rfl, ?_, by simp⟩
  simp only [FastRTCManager.get_stream] at hfresh ⊢
  rw [List.lookup_append, hfresh]
  simp

/-- Witness for C7: each branch of the amended create law at a concrete
input — the empty id, the full registry `c7_full`, the duplicate id `a` of
`c3_m`, and a fresh create on the empty registry. -/
theorem C7_create_amended_witness :
    FastRTCManager.init.create_stream 0 "" "audio" "send" =
      (.error "Invalid webrtc_id: cannot be None or empty", FastRTCManager.init) ∧
    c7_full.create_stream 0 "0" "audio" "send" =
      (.error "Maximum number of streams reached", c7_full) ∧
    c3_m.create_stream 1 "a" "video" "receive" =
      (.error "Stream a already exists", c3_m) ∧
    (FastRTCManager.init.create_stream 0 "b" "audio" "send").1 =
      .ok (FastRTCStream.init "b" "audio" "send" 0) := by
  have hd := (C7_create_amended.2.2.1 c3_m 1 "a" "video" "receive"
    (by decide) (by decide) (by rfl))
  have hok := (C7_create_amended.2.2.2 FastRTCManager.init 0 "b" "audio" "send"
    (by decide) (by decide) rfl).1
  refine ⟨C7_create_amended.1 FastRTCManager.init 0 "" "audio" "send" (Or.inl rfl),
          C7_create_amended.2.1 c7_full 0 "0" "audio" "send" (by decide) (by decide),
          ?_, ?_⟩
  · rw [hd]
    rfl
  · rw [hok]

/-- C8: the registry invariant — unique stream ids and size bounded by
`maxStreams` — holds initially and is preserved by `create_stream`,
`remove_stream`, `process_audio`, `cleanup_inactive_streams` and the
start/stop control handler; moreover from any registry, creating any number
of distinct valid fresh ids that fits under the capacity bound succeeds and
grows the size accordingly, and once the size has reached `maxStreams` the
next create fails with the capacity error. -/
theorem C8_registry_invariant :
    RegistryInvariant FastRTCManager.init ∧
    (∀ (m : FastRTCManager) (now : Nat) (webrtc_id modality mode : String),
        RegistryInvariant m →
        RegistryInvariant (m.create_stream now webrtc_id modality mode).2) ∧
    (∀ (m : FastRTCManager) (webrtc_id : String), RegistryInvariant m →
        RegistryInvariant (m.remove_stream webrtc_id)) ∧
    (∀ (m : FastRTCManager) (now : Nat) (sinkOk : Bool) (webrtc_id : String)
        (audio_data : Chunk), RegistryInvariant m →
        RegistryInvariant (m.process_audio now sinkOk webrtc_id audio_data).manager) ∧
    (∀ (m : FastRTCManager) (now k : Nat), RegistryInvariant m →
        RegistryInvariant (m.cleanup_inactive_streams now k).2) ∧
    (∀ (now : Nat) (msg_type msg_webrtc_id : Option String) (flag : Bool)
        (m : FastRTCManager), RegistryInvariant m →
        RegistryInvariant (handle_control_message now msg_type msg_webrtc_id flag m).2.1) ∧
    (∀ (now : Nat) (modality mode : String) (ids : List String)
        (m : FastRTCManager), ids.Nodup →
        (∀ webrtc_id ∈ ids, ¬(webrtc_id = "" ∨ webrtc_id = "None")) →
        (∀ webrtc_id ∈ ids, m.get_stream webrtc_id = none) →
        m.streams.length + ids.length ≤ m.max_streams →
        (FastRTCManager.createMany now modality mode m ids).1 = .ok () ∧
        (FastRTCManager.createMany now modality mode m ids).2.streams.length =
          m.streams.length + ids.length) ∧
    (∀ (m : FastRTCManager) (now : Nat) (webrtc_id modality mode : String),
        ¬(webrtc_id = "" ∨ webrtc_id = "None") →
        m.max_streams ≤ m.streams.length →
        (m.create_stream now webrtc_id modality mode).1 =
          .error "Maximum number of streams reached") := by
  refine ⟨⟨List.nodup_nil, by simp [FastRTCManager.init]⟩,
          create_stream_inv, remove_stream_inv, process_audio_inv, cleanup_inv,
          handle_control_inv, ?_, ?_⟩
  · intro now modality mode ids m h1 h2 h3 h4
    exact ⟨(createMany_ok now modality mode ids m h1 h2 h3 h4).1,
           (createMany_ok now modality mode ids m h1 h2 h3 h4).2.1⟩
  · intro m now webrtc_id modality mode hvalid hcap
    rw [create_stream_capacity m now webrtc_id modality mode hvalid hcap]

/-- Witness for C8: the invariant law applied at concrete inputs — the
create of `a` on the empty registry, a two-id run of creates, and the
capacity failure on the full registry `c7_full`. -/
theorem C8_registry_invariant_witness :
    RegistryInvariant (FastRTCManager.init.create_stream 0 "a" "audio" "send").2 ∧
    (FastRTCManager.createMany 0 "audio" "send" FastRTCManager.init ["a", "b"]).1 =
      .ok () ∧
    (FastRTCManager.createMany 0 "audio" "send"
        FastRTCManager.init ["a", "b"]).2.streams.length = 2 ∧
    (c7_full.create_stream 0 "zzz" "audio" "send").1 =
      .error "Maximum number of streams reached" := by
  have h2 := C8_registry_invariant.2.2.2.2.2.2.1 0 "audio" "send" ["a", "b"]
    FastRTCManager.init (by decide) (by decide) (by decide) (by decide)
  refine ⟨C8_registry_invariant.2.1 FastRTCManager.init 0 "a" "audio" "send"
            C8_registry_invariant.1,
          h2.1, ?_,
          C8_registry_invariant.2.2.2.2.2.2.2 c7_full 0 "zzz" "audio" "send"
            (by decide) (by decide)⟩
  rw [h2.2]
  rfl

/-- C9 (amended): for a registered stream, a `start_streaming` control
message activates it in place (refreshing `lastActivity`) and replies
`streaming_started`, and `stop_streaming` deactivates it and replies
`streaming_stopped` — both succeed also when the stream is already in the
target state; when the id is absent from the registry the handler silently
skips the transition and still sends the same success reply, rather than
failing with `NotFound`. -/
theorem C9_startstop_amended :
    (∀ (now : Nat) (webrtc_id : String) (flag : Bool) (m : FastRTCManager)
        (s : FastRTCStream), webrtc_id ≠ "" → m.get_stream webrtc_id = some s →
        handle_control_message now (some "start_streaming") (some webrtc_id) flag m =
          (true, m.setStream webrtc_id (s.start_streaming now),
           .streaming_started) ∧
        (s.start_streaming now).is_active = true ∧
        (s.start_streaming now).last_activity = now) ∧
    (∀ (now : Nat) (webrtc_id : String) (flag : Bool) (m : FastRTCManager)
        (s : FastRTCStream), webrtc_id ≠ "" → m.get_stream webrtc_id = some s →
        handle_control_message now (some "stop_streaming") (some webrtc_id) flag m =
          (false, m.setStream webrtc_id s.stop_streaming, .streaming_stopped) ∧
        s.stop_streaming.is_active = false) ∧
    (∀ (now : Nat) (webrtc_id : String) (flag : Bool) (m : FastRTCManager),
        m.get_stream webrtc_id = none →
        handle_control_message now (some "start_streaming") (some webrtc_id) flag m =
          (true, m, .streaming_started)) ∧
    (∀ (now : Nat) (webrtc_id : String) (flag : Bool) (m : FastRTCManager),
        m.get_stream webrtc_id = none →
        handle_control_message now (some "stop_streaming") (some webrtc_id) flag m =
          (false, m, .streaming_stopped)) := by
  refine ⟨?_, ?_, ?_, ?_⟩
  · intro now webrtc_id flag m s hid hs
    refine ⟨?_, rfl, rfl⟩
    simp [handle_control_message, pyTruthy, pyStr, hid, hs]
  · intro now webrtc_id flag m s hid hs
    refine ⟨?_, rfl⟩
    simp [handle_control_message, pyTruthy, pyStr, hid, hs]
  · intro now webrtc_id flag m hs
    by_cases hid : webrtc_id = ""
    · subst hid
      simp [handle_control_message, pyTruthy]
    · simp [handle_control_message, pyTruthy, pyStr, hid, hs]
  · intro now webrtc_id flag m hs
    by_cases hid : webrtc_id = ""
    · subst hid
      simp [handle_control_message, pyTruthy]
    · simp [handle_control_message, pyTruthy, pyStr, hid, hs]

/-- Witness for C9: the amended start/stop law at the concrete registry
`c9_m` (holding the inactive stream `y`) and at the empty registry. -/
theorem C9_startstop_amended_witness :
    ((handle_control_message 4 (some "start_streaming") (some "y") false c9_m).2.1.get_stream
        "y").map FastRTCStream.is_active = some true ∧
    (handle_control_message 4 (some "start_streaming") (some "y") false c9_m).2.2 =
      .streaming_started ∧
    handle_control_message 4 (some "stop_streaming") (some "ghost") true
        FastRTCManager.init = (false, FastRTCManager.init, .streaming_stopped) := by
  have h1 := (C9_startstop_amended.1 4 "y" false c9_m
    (FastRTCStream.init "y" "audio" "send" 0) (by decide) rfl).1
  refine ⟨?_, ?_, C9_startstop_amended.2.2.2 4 "ghost" true FastRTCManager.init rfl⟩
  · rw [h1]
    rfl
  · rw [h1]
